import Mathlib

/-!
Verification development for the bodsch.docker Ansible collection:
a shallow embedding of its configuration-fragment reconciliation engine
(compose fragments, container environment/property/config files,
Docker client configs) and its registry merge/migration filters,
together with theorems settling the specification claims.

Python mappings are embedded as ordered association lists (Python dicts
preserve insertion order); the filesystem is a map from path to file
content; the external checksum engine (bodsch.core Checksum) is embedded
by its specified property that digest comparison is content comparison.
-/

/-- A Python value as used by the modules and filters: scalars, lists and
(insertion-ordered) dictionaries.  Floats are not needed by any claim. -/
inductive PyVal where
  | none
  | bool (b : Bool)
  | int (n : Int)
  | str (s : String)
  | list (xs : List PyVal)
  | dict (kvs : List (String × PyVal))
deriving Repr

/-- Python truthiness (`bool(v)` is False): None, False, 0, "", [], {}. -/
def PyVal.falsy : PyVal → Bool
  | .none => true
  | .bool b => !b
  | .int n => n == 0
  | .str s => s == ""
  | .list xs => xs.isEmpty
  | .dict kvs => kvs.isEmpty

/-- Python truthiness. -/
def PyVal.truthy (v : PyVal) : Bool := !v.falsy

/-- Python `v in (None, "", False)`: membership by `==`; note `0 == False`
holds in Python, so integer 0 is also matched. -/
def PyVal.eqNoneEmptyFalse : PyVal → Bool
  | .none => true
  | .str s => s == ""
  | .bool b => !b
  | .int n => n == 0
  | _ => false

/-- `k in d` on a Python dict. -/
def containsKey (k : String) (d : List (String × PyVal)) : Bool :=
  d.any (fun kv => kv.1 == k)

/-- `d[k]` lookup (first occurrence; literal dicts have unique keys). -/
def dictLookup (k : String) (d : List (String × PyVal)) : Option PyVal :=
  (d.find? (fun kv => kv.1 == k)).map (fun kv => kv.2)

/-- `d.get(k)`: missing keys yield None. -/
def dictGet (k : String) (d : List (String × PyVal)) : PyVal :=
  (dictLookup k d).getD PyVal.none

/-- `d.pop(k, None)`: drop the entry for `k`. -/
def dictRemove (k : String) (d : List (String × PyVal)) :
    List (String × PyVal) :=
  d.filter (fun kv => kv.1 != k)

/-- `d[k] = v`: overwrite in place if the key exists (keeping its
position, as Python dicts do), else append. -/
def dictSet (d : List (String × PyVal)) (k : String) (v : PyVal) :
    List (String × PyVal) :=
  if containsKey k d then
    d.map (fun kv => if kv.1 == k then (k, v) else kv)
  else
    d ++ [(k, v)]

/-- Python `{**a, **b}`: the keys of `a` in order with values overridden
by `b` where present, then the keys of `b` not in `a`, in order. -/
def dictMerge (a b : List (String × PyVal)) : List (String × PyVal) :=
  (a.map (fun kv => (kv.1, (dictLookup kv.1 b).getD kv.2))) ++
    b.filter (fun kv => !containsKey kv.1 a)

/-- JSON string escaping as in `json.dumps` with `ensure_ascii=False`
(common escapes; other characters pass through unescaped). -/
def jsonEscapeChar (c : Char) : String :=
  if c = '"' then "\\\""
  else if c = '\\' then "\\\\"
  else if c = '\n' then "\\n"
  else if c = '\t' then "\\t"
  else if c = '\r' then "\\r"
  else String.singleton c

/-- Escape a string for a JSON string literal. -/
def jsonEscape (s : String) : String :=
  String.join (s.toList.map jsonEscapeChar)

mutual

/-- `json.dumps(v, ensure_ascii=False)` with the default separators
`", "` and `": "` (the compact one-line form used for INI values). -/
def jsonDumps : PyVal → String
  | .none => "null"
  | .bool true => "true"
  | .bool false => "false"
  | .int n => toString n
  | .str s => "\"" ++ jsonEscape s ++ "\""
  | .list xs => "[" ++ jsonDumpsList xs ++ "]"
  | .dict kvs => "\x7b" ++ jsonDumpsDict kvs ++ "\x7d"

/-- Comma-joined JSON renderings of list elements. -/
def jsonDumpsList : List PyVal → String
  | [] => ""
  | [x] => jsonDumps x
  | x :: y :: xs => jsonDumps x ++ ", " ++ jsonDumpsList (y :: xs)

/-- Comma-joined JSON renderings of dict entries. -/
def jsonDumpsDict : List (String × PyVal) → String
  | [] => ""
  | [(k, v)] => "\"" ++ jsonEscape k ++ "\": " ++ jsonDumps v
  | (k, v) :: kv :: kvs =>
      "\"" ++ jsonEscape k ++ "\": " ++ jsonDumps v ++ ", " ++
        jsonDumpsDict (kv :: kvs)

end

/-- configparser `optionxform`: option keys are lowercased. -/
def optionxform (s : String) : String := String.mk (s.data.map Char.toLower)

/-- `INIWriter._to_str`: booleans become the lowercase literals, None
becomes the empty string, other scalars are `str()`-rendered, and
non-primitive values (lists, nested mappings) are JSON-serialized. -/
def iniToStr : PyVal → String
  | .bool true => "true"
  | .bool false => "false"
  | .none => ""
  | .str s => s
  | .int n => toString n
  | v => jsonDumps v

/-- The named sections built by `INIWriter.dump`: one per top-level key
whose value is a mapping; option keys are lowercased by configparser
(`optionxform`), values rendered by `_to_str`. -/
def iniSections (data : List (String × PyVal)) :
    List (String × List (String × String)) :=
  data.filterMap (fun kv =>
    match kv.2 with
    | .dict kvs =>
        some (kv.1, kvs.map (fun skv => (optionxform skv.1, iniToStr skv.2)))
    | _ => none)

/-- The implicit DEFAULT section of `INIWriter.dump`: all top-level keys
whose value is not a mapping (keys lowercased by configparser). -/
def iniDefaults (data : List (String × PyVal)) : List (String × String) :=
  data.filterMap (fun kv =>
    match kv.2 with
    | .dict _ => none
    | v => some (optionxform kv.1, iniToStr v))

/-- One rendered INI section body: `key = value` lines. -/
def iniRenderOpts (opts : List (String × String)) : String :=
  String.join (opts.map (fun kv => kv.1 ++ " = " ++ kv.2 ++ "\n"))

/-- `INIWriter.dump`: configparser text — the DEFAULT section first when
non-empty, then each named section in insertion order, each followed by
a blank line. -/
def iniDump (data : List (String × PyVal)) : String :=
  (if iniDefaults data = [] then ""
   else "[DEFAULT]\n" ++ iniRenderOpts (iniDefaults data) ++ "\n") ++
  String.join ((iniSections data).map (fun s =>
    "[" ++ s.1 ++ "]\n" ++ iniRenderOpts s.2 ++ "\n"))

/-- Split a character list on the dot separator. -/
def splitOnDot : List Char → List Char → List (List Char)
  | [], acc => [acc.reverse]
  | c :: cs, acc =>
      if c = '.' then acc.reverse :: splitOnDot cs []
      else splitOnDot cs (c :: acc)

/-- Parse one dotted component: a non-empty numeral. -/
def parseNatPart (cs : List Char) : Option Nat :=
  if cs.isEmpty then Option.none
  else if cs.all Char.isDigit then
    some (cs.foldl (fun n c => n * 10 + (c.toNat - 48)) 0)
  else Option.none

/-- Parse a version string as `packaging.version.Version` does for plain
dotted releases: every dot-separated component must be a numeral.
Anything else is a parse failure (the filter catches the exception). -/
def parseVersion (s : String) : Option (List Nat) :=
  (splitOnDot s.data []).mapM parseNatPart

/-- Trailing zeros of a release tuple are insignificant in packaging
(`Version "3.0" == Version "3"`). -/
def stripZeros (l : List Nat) : List Nat :=
  (l.reverse.dropWhile (fun n => n == 0)).reverse

/-- Lexicographic strict order on release tuples. -/
def releaseLt : List Nat → List Nat → Bool
  | [], [] => false
  | [], _ :: _ => true
  | _ :: _, [] => false
  | a :: as, b :: bs =>
      if a < b then true else if b < a then false else releaseLt as bs

/-- `RegistryFilters.version_compare`: compare two version strings under
an operator name; unknown operators and unparseable versions yield
False (the code catches KeyError and any comparison exception). -/
def version_compare (ver1 specifier ver2 : String) : Bool :=
  match parseVersion ver1, parseVersion ver2 with
  | some a, some b =>
    let a := stripZeros a
    let b := stripZeros b
    match specifier with
    | "<" => releaseLt a b
    | "<=" => releaseLt a b || a == b
    | "==" => a == b
    | ">=" => !releaseLt a b
    | ">" => releaseLt b a
    | _ => false
  | _, _ => false

/-- `RegistryFilters.registry_migrate`: on a truthy version at least 3.0,
a truthy legacy `addr` is popped, and rewritten to `addrs = [addr]`
when `addrs` is missing or falsy; otherwise the data passes through.
The `config_type` parameter is unused by the code. -/
def registry_migrate (data : List (String × PyVal)) (_configType : Option String)
    (version : Option String) : List (String × PyVal) :=
  let versionTruthy := match version with
    | some v => v != ""
    | Option.none => false
  if versionTruthy && version_compare (version.getD "") ">=" "3.0" then
    let redisAddr := dictGet "addr" data
    let redisAddrs := dictGet "addrs" data
    let result := if redisAddr.truthy then dictRemove "addr" data else data
    if redisAddr.truthy && !redisAddrs.truthy then
      dictSet result "addrs" (PyVal.list [redisAddr])
    else result
  else data

/-- `ContainerBase._safe_merge`: merge two dicts and drop values equal
(by Python `==`) to None, `""` or False.  A non-dict override is a
`TypeError` (`{**base, **override}` requires a mapping). -/
def safe_merge (base : List (String × PyVal)) (override : PyVal) :
    Except String (List (String × PyVal)) :=
  match override with
  | .dict b =>
      .ok ((dictMerge base b).filter (fun kv => !kv.2.eqNoneEmptyFalse))
  | _ => .error "TypeError: object is not a mapping"

/-- Python iteration `for entry in data`: dicts yield their keys, lists
their elements, strings their characters; else a TypeError. -/
def pyIter : PyVal → Except String (List PyVal)
  | .dict kvs => .ok (kvs.map (fun kv => PyVal.str kv.1))
  | .list xs => .ok xs
  | .str s => .ok (s.toList.map (fun c => PyVal.str (String.singleton c)))
  | _ => .error "TypeError: object is not iterable"

/-- `RegistryFilters.combine_registries`, line by line: the leading
comprehension `[_safe_merge(defaults[0], entry) for entry in data]`
(which indexes `defaults` before the emptiness guard and feeds raw
iteration items to `_safe_merge`), the emptiness guard, then the
dict / list branches appending `{**default, **entry}` cleaned of all
falsy values. -/
def combine_registries (data : PyVal)
    (defaults : List (List (String × PyVal))) :
    Except String (List (List (String × PyVal))) := do
  let entries ← pyIter data
  let result ← entries.mapM (fun entry =>
    match defaults with
    | [] => Except.error "IndexError: list index out of range"
    | d :: _ => safe_merge d entry)
  if defaults.isEmpty then
    Except.error
      "combine_registries requires at least one default configuration"
  else
    let dflt := defaults.headD []
    match data with
    | .dict kvs =>
        let merged := dictMerge dflt kvs
        let cleaned := merged.filter (fun kv => kv.2.truthy)
        pure (result ++ [cleaned])
    | .list xs =>
        let extra := xs.filterMap (fun entry =>
          match entry with
          | .dict kvs =>
              some ((dictMerge dflt kvs).filter (fun kv => kv.2.truthy))
          | _ => Option.none)
        pure (result ++ extra)
    | _ =>
        -- `_data = data.copy() if isinstance(data, (dict, list)) else {}`:
        -- any other type reaching this point is treated as an empty dict.
        let cleaned := dflt.filter (fun kv => kv.2.truthy)
        pure (result ++ [cleaned])

/-! ## Filesystem model and file operations -/

/-- The on-disk state of the managed directory tree: a map from absolute
path to file content.  Scratch files under the process-private temp
directory are not part of this state (the modules delete the temp tree
at the end of every run); scratch writes appear in the operation trace
instead. -/
def FS : Type := String → Option String

/-- Write (create or truncate-and-write) a file. -/
def FS.write (fs : FS) (p c : String) : FS :=
  fun q => if q = p then some c else fs q

/-- `os.remove`. -/
def FS.erase (fs : FS) (p : String) : FS :=
  fun q => if q = p then Option.none else fs q

/-- The filesystem with no files. -/
def FS.empty : FS := fun _ => Option.none

/-- One observable file operation, as issued by the modules.  `write`
is an in-place `open(path, "w")`-style write of a complete rendering,
`move` is `shutil.move`, `rm` is `os.remove`. -/
inductive FileOp where
  | write (path content : String)
  | move (src dst : String)
  | rm (path : String)
deriving Repr, DecidableEq

/-! ## compose_files: ModuleComposeFiles -/

/-- `os.path.join(base_directory, f"{name}.conf")` for path-safe names. -/
def composePath (base name : String) : String :=
  base ++ "/" ++ name ++ ".conf"

/-- `os.path.join(tmp_directory, f"{name}.conf")`. -/
def composeTmpPath (tmpd name : String) : String :=
  tmpd ++ "/" ++ name ++ ".conf"

/-- Modelled from the spec: the external ruamel.yaml serializer.  Each
top-level key is rendered on one line with its value in flow style
(valid YAML).  Only determinism and purity of the serialization are
load-bearing for any claim. -/
def yamlDump (kvs : List (String × PyVal)) : String :=
  String.join (kvs.map (fun kv => kv.1 ++ ": " ++ jsonDumps kv.2 ++ "\n"))

/-- `ComposeFile.create(**{compose_type: {name: payload}})` followed by
the YAML dump done by `ComposeFile.write`: the entity payload wrapped
under its name under its compose type key. -/
def composeContent (etype name : String)
    (payload : List (String × PyVal)) : String :=
  yamlDump [(etype, PyVal.dict [(name, PyVal.dict payload)])]

/-- `ModuleComposeFiles.__file_state_absent`: delete the fragment if it
exists; changed reports whether it existed. -/
def fileStateAbsent (fs : FS) (target : String) :
    FS × Bool × List FileOp :=
  match fs target with
  | some _ => (fs.erase target, true, [FileOp.rm target])
  | Option.none => (fs, false, [])

/-- `ModuleComposeFiles.__file_state_present` with `ComposeFile.validate`:
write the rendering to the scratch file, compare digests (a missing
target counts as changed), and on change move the scratch file over the
target.  Digest comparison is content comparison (spec section 4.2). -/
def fileStatePresent (fs : FS) (tmpFile target content : String) :
    FS × Bool × List FileOp :=
  if fs target = some content then
    (fs, false, [FileOp.write tmpFile content])
  else
    (fs.write target content, true,
      [FileOp.write tmpFile content, FileOp.move tmpFile target])

/-- One compose entity: `name` and `state` as fetched with `.get`, and
the remaining payload keys. -/
structure ComposeEntity where
  name : Option String
  state : String
  payload : List (String × PyVal)

/-- `entity.get("name")` followed by `if not name: continue`: a missing
or empty name means the entity is skipped. -/
def keptName (e : ComposeEntity) : Option String :=
  match e.name with
  | some n => if n = "" then Option.none else some n
  | Option.none => Option.none

/-- The names of the entities that are not skipped. -/
def keptNames (es : List ComposeEntity) : List String :=
  es.filterMap keptName

/-- Processing of one named compose entity (the body of the loop in
`ModuleComposeFiles._save_entities`). -/
def composeStep (base etype tmpd : String) (fs : FS) (e : ComposeEntity)
    (n : String) : FS × Bool × List FileOp :=
  if e.state = "absent" then
    fileStateAbsent fs (composePath base n)
  else
    fileStatePresent fs (composeTmpPath tmpd n) (composePath base n)
      (composeContent etype n e.payload)

/-- `ModuleComposeFiles._save_entities`: iterate the entity list in
order, skipping entities without a name; returns the final filesystem,
the aggregate changed flag (the OR over per-entity records, the
aggregation rule of bodsch.core `results`, spec section 3), the
per-entity records and the operation trace. -/
def saveEntities (base etype tmpd : String) (es : List ComposeEntity)
    (fs : FS) : FS × Bool × List (String × Bool) × List FileOp :=
  match es with
  | [] => (fs, false, [], [])
  | e :: rest =>
    match keptName e with
    | Option.none => saveEntities base etype tmpd rest fs
    | some n =>
      let r := composeStep base etype tmpd fs e n
      let rr := saveEntities base etype tmpd rest r.1
      (rr.1, r.2.1 || rr.2.1, (n, r.2.1) :: rr.2.2.1, r.2.2 ++ rr.2.2.2)

/-! ## container_environments: ContainerEnvironments -/

/-- `os.path.join(base, name, file)`; an empty middle component is
dropped by `os.path.join`. -/
def pathJoin3 (base name file : String) : String :=
  if name = "" then base ++ "/" ++ file
  else base ++ "/" ++ name ++ "/" ++ file

/-- Modelled from the spec: bodsch.core `write_template` applied to the
TPL_ENV Jinja template of the module — a generated-by header and one
`KEY=value` line per entry, insertion order preserved. -/
def envRender (envs : List (String × String)) : String :=
  "# generated by ansible\n\n" ++
    String.join (envs.map (fun kv => kv.1 ++ "=" ++ kv.2 ++ "\n")) ++ "\n"

/-- `key.ljust(30)`. -/
def ljust30 (k : String) : String :=
  k ++ String.mk (List.replicate (30 - k.length) ' ')

/-- Modelled from the spec: bodsch.core `write_template` applied to the
TPL_PROP Jinja template of the module — one `key<padded> = value` line per
entry. -/
def propRender (props : List (String × String)) : String :=
  "# generated by ansible\n\n" ++
    String.join (props.map (fun kv => ljust30 kv.1 ++ " = " ++ kv.2 ++ "\n")) ++
    "\n"

/-- `ContainerEnvironments._write_environments`: drop a stale checksum
sidecar, render to the scratch file, compare digests against the data
file, and on change re-render the template directly to the target path
(an in-place write of the target, not a move). -/
def writeEnvironments (base tmpd name : String)
    (envs : List (String × String)) (fs : FS) : FS × Bool × List FileOp :=
  let dataFile := pathJoin3 base name "container.env"
  let checksumFile := pathJoin3 base name "container.env.checksum"
  let tmpFile := pathJoin3 tmpd name (name ++ ".env")
  let rendered := envRender envs
  let fs0 := if (fs checksumFile).isSome then fs.erase checksumFile else fs
  let ops0 := if (fs checksumFile).isSome then [FileOp.rm checksumFile] else []
  if fs0 dataFile = some rendered then
    (fs0, false, ops0 ++ [FileOp.write tmpFile rendered])
  else
    (fs0.write dataFile rendered, true,
      ops0 ++ [FileOp.write tmpFile rendered, FileOp.write dataFile rendered])

/-- `ContainerEnvironments._write_properties`: drop a stale checksum
sidecar; empty properties delete the data file if present and report
changed=False; otherwise render, compare digests, and on change
re-render directly to the target path. -/
def writeProperties (base tmpd name fname : String)
    (props : List (String × String)) (fs : FS) : FS × Bool × List FileOp :=
  let dataFile := pathJoin3 base name fname
  let checksumFile := pathJoin3 base name (fname ++ ".checksum")
  let tmpFile := pathJoin3 tmpd name fname
  let fs0 := if (fs checksumFile).isSome then fs.erase checksumFile else fs
  let ops0 := if (fs checksumFile).isSome then [FileOp.rm checksumFile] else []
  if props = [] then
    match fs0 dataFile with
    | some _ => (fs0.erase dataFile, false, ops0 ++ [FileOp.rm dataFile])
    | Option.none => (fs0, false, ops0)
  else
    let rendered := propRender props
    if fs0 dataFile = some rendered then
      (fs0, false, ops0 ++ [FileOp.write tmpFile rendered])
    else
      (fs0.write dataFile rendered, true,
        ops0 ++ [FileOp.write tmpFile rendered, FileOp.write dataFile rendered])

/-- Modelled from the spec: the external TOML serializer (tomli-w/toml);
only determinism is load-bearing. -/
def tomlDump (kvs : List (String × PyVal)) : String :=
  String.join (kvs.map (fun kv => kv.1 ++ " = " ++ jsonDumps kv.2 ++ "\n"))

/-- `ContainerEnvironments.resolve_writer` followed by `Writer.dump`:
dispatch on the lowercased, stripped type name; unknown types raise
ValueError.  (the two-space indentation of JSONWriter is not modelled; no
claim depends on the JSON layout.) -/
def configDump (ctype : String) (data : List (String × PyVal)) :
    Except String String :=
  let t := ctype.trim.toLower
  if t = "yaml" || t = "yml" then .ok (yamlDump data)
  else if t = "json" then .ok (jsonDumps (PyVal.dict data))
  else if t = "toml" then .ok (tomlDump data)
  else if t = "ini" then .ok (iniDump data)
  else .error ("Unknown configuration type " ++ ctype)

/-- `ContainerEnvironments._write_config`: drop a stale checksum sidecar;
empty data deletes the data file if present and reports changed=False;
otherwise dump via the resolved writer to a scratch file (the
random NamedTemporaryFile name is modelled deterministically),
compare digests, and on change `shutil.move` the scratch file over the
target. -/
def writeConfig (base tmpd name fname ctype : String)
    (data : List (String × PyVal)) (fs : FS) :
    Except String (FS × Bool × List FileOp) := do
  let dataFile := pathJoin3 base name fname
  let checksumFile := pathJoin3 base name (fname ++ ".checksum")
  let tmpFile := pathJoin3 tmpd name fname
  let fs0 := if (fs checksumFile).isSome then fs.erase checksumFile else fs
  let ops0 := if (fs checksumFile).isSome then [FileOp.rm checksumFile] else []
  if data.isEmpty then
    match fs0 dataFile with
    | some _ => pure (fs0.erase dataFile, false, ops0 ++ [FileOp.rm dataFile])
    | Option.none => pure (fs0, false, ops0)
  else
    let text ← configDump ctype data
    if fs0 dataFile = some text then
      pure (fs0, false, ops0 ++ [FileOp.write tmpFile text])
    else
      pure (fs0.write dataFile text, true,
        ops0 ++ [FileOp.write tmpFile text, FileOp.move tmpFile dataFile])

/-- One container entry of the `container` list: `c.get(key, default)`
with falsy values replaced by the defaults (`or {}` / `or []`).
A missing name is `c.get("name", "")`, the empty string. -/
structure ContainerEntity where
  name : String
  environments : List (String × String)
  properties : List (String × String)
  propertyFiles : List (String × List (String × String))
  configFiles : List (String × String × List (String × PyVal))

/-- The property-file loop of `ContainerEnvironments.run`. -/
def runProps (base tmpd name : String)
    (files : List (String × List (String × String))) (fs : FS) :
    FS × Bool × List FileOp :=
  match files with
  | [] => (fs, false, [])
  | (fn, props) :: rest =>
    let r := writeProperties base tmpd name fn props fs
    let rr := runProps base tmpd name rest r.1
    (rr.1, r.2.1 || rr.2.1, r.2.2 ++ rr.2.2)

/-- The config-file loop of `ContainerEnvironments.run`. -/
def runConfigs (base tmpd name : String)
    (files : List (String × String × List (String × PyVal))) (fs : FS) :
    Except String (FS × Bool × List FileOp) :=
  match files with
  | [] => pure (fs, false, [])
  | (fn, ctype, data) :: rest => do
    let r ← writeConfig base tmpd name fn ctype data fs
    let rr ← runConfigs base tmpd name rest r.1
    pure (rr.1, r.2.1 || rr.2.1, r.2.2 ++ rr.2.2)

/-- The per-container body of `ContainerEnvironments.run`: environments
are always written (no skip for missing names); the properties block
runs only when `properties` or `property_files` is truthy, appending
the main `{name}.properties` file to the property-file list; the
config block runs only when `config_files` is truthy. -/
def containerStep (base tmpd : String) (c : ContainerEntity) (fs : FS) :
    Except String (FS × Bool × List FileOp) := do
  let re := writeEnvironments base tmpd c.name c.environments fs
  let rp ←
    if !c.properties.isEmpty || !c.propertyFiles.isEmpty then
      pure (runProps base tmpd c.name
        (c.propertyFiles ++ [(c.name ++ ".properties", c.properties)]) re.1)
    else
      pure (re.1, false, ([] : List FileOp))
  let rc ←
    if !c.configFiles.isEmpty then
      runConfigs base tmpd c.name c.configFiles rp.1
    else
      pure (rp.1, false, ([] : List FileOp))
  pure (rc.1, (re.2.1 || rp.2.1) || rc.2.1, (re.2.2 ++ rp.2.2) ++ rc.2.2)

/-- `ContainerEnvironments.run`: iterate all container entries; a record
is appended only for changed entries; the aggregate changed flag is the
OR over the records (bodsch.core `results`, spec section 3). -/
def containerRun (base tmpd : String) (cs : List ContainerEntity)
    (fs : FS) :
    Except String (FS × Bool × List (String × Bool) × List FileOp) :=
  match cs with
  | [] => pure (fs, false, [], [])
  | c :: rest => do
    let r ← containerStep base tmpd c fs
    let rr ← containerRun base tmpd rest r.1
    pure (rr.1, r.2.1 || rr.2.1,
      (if r.2.1 then [(c.name, true)] else []) ++ rr.2.2.1,
      r.2.2 ++ rr.2.2.2)

/-- Project the final filesystem of a run at one path. -/
def runFS (r : Except String (FS × Bool × List (String × Bool) × List FileOp))
    (p : String) : Option (Option String) :=
  match r with
  | .ok x => some (x.1 p)
  | .error _ => Option.none

/-- Project the aggregate changed flag of a run. -/
def runChanged
    (r : Except String (FS × Bool × List (String × Bool) × List FileOp)) :
    Option Bool :=
  match r with
  | .ok x => some x.2.1
  | .error _ => Option.none

/-- Project the per-entity records of a run. -/
def runRecords
    (r : Except String (FS × Bool × List (String × Bool) × List FileOp)) :
    Option (List (String × Bool)) :=
  match r with
  | .ok x => some x.2.2.1
  | .error _ => Option.none

/-- Project the operation trace of a run. -/
def runTrace
    (r : Except String (FS × Bool × List (String × Bool) × List FileOp)) :
    Option (List FileOp) :=
  match r with
  | .ok x => some x.2.2.2
  | .error _ => Option.none

/-! ## docker_client_configs: DockerClientConfigs -/

/-- `DockerClientConfigs._cleanup_checksum_file`: an existing checksum
sidecar is always removed (the second branch of the source is then
vacuous). -/
def cleanupChecksumFile (fs : FS) (checksumFile destination : String) : FS :=
  let fs1 := if (fs checksumFile).isSome then fs.erase checksumFile else fs
  if (fs1 destination).isNone && (fs1 checksumFile).isSome then
    fs1.erase checksumFile
  else fs1

/-- `DockerClientConfigs._remove_configuration`: delete destination and
checksum sidecar if they exist; changed reports whether either existed. -/
def removeConfiguration (fs : FS) (destination checksumFile : String) :
    FS × Bool × List FileOp :=
  let configExists := (fs destination).isSome
  let checksumExists := (fs checksumFile).isSome
  let fs1 := if configExists then fs.erase destination else fs
  let fs2 := if checksumExists then fs1.erase checksumFile else fs1
  (fs2, configExists || checksumExists,
    (if configExists then [FileOp.rm destination] else []) ++
      (if checksumExists then [FileOp.rm checksumFile] else []))

/-- The state=absent path of `DockerClientConfigs._manage_configuration`:
sidecar cleanup followed by `_remove_configuration`. -/
def clientConfigAbsent (fs : FS) (destination checksumFile : String) :
    FS × Bool × List FileOp :=
  removeConfiguration (cleanupChecksumFile fs checksumFile destination)
    destination checksumFile

/-- The standard base64 alphabet. -/
def b64Alphabet : List Char :=
  "ABCDEFGHIJKLMNOPQRSTUVWXYZabcdefghijklmnopqrstuvwxyz0123456789+/".toList

/-- Encode a group of at most three bytes into base64 characters. -/
def b64Group : List Nat → String
  | [b0, b1, b2] =>
      String.mk [b64Alphabet.getD (b0 / 4) 'A',
        b64Alphabet.getD ((b0 % 4) * 16 + b1 / 16) 'A',
        b64Alphabet.getD ((b1 % 16) * 4 + b2 / 64) 'A',
        b64Alphabet.getD (b2 % 64) 'A']
  | [b0, b1] =>
      String.mk [b64Alphabet.getD (b0 / 4) 'A',
        b64Alphabet.getD ((b0 % 4) * 16 + b1 / 16) 'A',
        b64Alphabet.getD ((b1 % 16) * 4) 'A'] ++ "="
  | [b0] =>
      String.mk [b64Alphabet.getD (b0 / 4) 'A',
        b64Alphabet.getD ((b0 % 4) * 16) 'A'] ++ "=="
  | _ => ""

/-- `base64.standard_b64encode` over a byte list. -/
def b64encodeBytes : List Nat → String
  | b0 :: b1 :: b2 :: rest => b64Group [b0, b1, b2] ++ b64encodeBytes rest
  | rest => b64Group rest

/-- `base64.standard_b64encode(s.encode("utf-8")).decode("utf-8")`. -/
def b64encode (s : String) : String :=
  b64encodeBytes (s.toUTF8.toList.map (fun b => b.toNat))

/-- Python `str()` of the embedded values (used in the f-string
`f"{username}:{password}"`). -/
def pyStr : PyVal → String
  | .none => "None"
  | .bool true => "True"
  | .bool false => "False"
  | .int n => toString n
  | .str s => s
  | v => jsonDumps v

/-- The invalid-combination message of `_validate_auth`. -/
def authConflictMsg : String :=
  "Define either \x27auth\x27 or \x27username/password\x27, not both."

/-- The missing-credentials message of `_validate_auth`. -/
def authMissingMsg : String :=
  "Both \x27username\x27 and \x27password\x27 must be set."

/-- `DockerClientConfigs._validate_auth`: the four truthiness-based
guards of the source, in order, with its exact fall-through. -/
def validateAuth (creds : List (String × PyVal)) : Bool × String :=
  let auth := dictGet "auth" creds
  let username := dictGet "username" creds
  let password := dictGet "password" creds
  if !auth.truthy && !(username.truthy || password.truthy) then
    (true, "No authentication defined.")
  else if auth.truthy && !(username.truthy || password.truthy) then
    (true, "Base64 authentication defined.")
  else if auth.truthy && (username.truthy && password.truthy) then
    (false, authConflictMsg)
  else if !auth.truthy && (!username.truthy || !password.truthy) then
    (false, authMissingMsg)
  else
    (true, "Username/password authentication defined.")

/-- `DockerClientConfigs._encode_auth`: a present `auth` key is returned
verbatim (no re-encoding); otherwise `username:password` is base64
encoded. -/
def encodeAuth (creds : List (String × PyVal)) : PyVal :=
  if containsKey "auth" creds then dictGet "auth" creds
  else
    PyVal.str (b64encode
      (pyStr (dictGet "username" creds) ++ ":" ++
        pyStr (dictGet "password" creds)))

/-- One step of the `_handle_authentications` loop: an invalid entry is
appended to the invalid list, a valid one to the `auths` mapping. -/
def handleAuthStep (acc : List (String × String) × List (String × PyVal))
    (entry : String × List (String × PyVal)) :
    List (String × String) × List (String × PyVal) :=
  if (validateAuth entry.2).1 then
    (acc.1, dictSet acc.2 entry.1 (PyVal.dict [("auth", encodeAuth entry.2)]))
  else
    (acc.1 ++ [(entry.1, (validateAuth entry.2).2)], acc.2)

/-- `DockerClientConfigs._handle_authentications`: returns the invalid
entries (registry, message) and the inner `auths` mapping
(registry to `{"auth": ...}`). -/
def handleAuthentications (auths : List (String × List (String × PyVal))) :
    List (String × String) × List (String × PyVal) :=
  auths.foldl handleAuthStep ([], [])

/-- `DockerClientConfigs._handle_formats`: sections with a non-empty
field list become `{section}Format` mapped to a `table `-prefixed,
literal-backslash-t-joined list of `\x7b\x7bField\x7d\x7d` tokens. -/
def handleFormats (formats : List (String × List String)) :
    List (String × PyVal) :=
  formats.filterMap (fun sf =>
    if sf.2.isEmpty then Option.none
    else some (sf.1 ++ "Format",
      PyVal.str ("table " ++
        String.intercalate "\\t"
          (sf.2.map (fun f => "\x7b\x7b" ++ f ++ "\x7d\x7d")))))

/-- `DockerClientConfigs._write_json`: json.dump of the data plus a
trailing newline (the two-space indentation of json.dump is not
modelled; only content equality is load-bearing). -/
def clientJsonDump (data : List (String × PyVal)) : String :=
  jsonDumps (PyVal.dict data) ++ "\n"

/-- The auth/format/write tail of the state=present path of
`DockerClientConfigs._manage_configuration` (from
`_handle_authentications` on): invalid auth entries abort with
failed=True before any file is written; otherwise the merged
`{**valid_auths, **formats}` document is written to the scratch file,
digests compared, and on change written to the destination.
Result: (filesystem, failed, changed, trace). -/
def clientConfigPresent (fs : FS) (destination tmpFile : String)
    (auths : List (String × List (String × PyVal)))
    (formats : List (String × List String)) :
    FS × Bool × Bool × List FileOp :=
  let ha := handleAuthentications auths
  if !ha.1.isEmpty then
    (fs, true, false, [])
  else
    let data := [("auths", PyVal.dict ha.2)] ++ handleFormats formats
    let content := clientJsonDump data
    if fs destination = some content then
      (fs, false, false, [FileOp.write tmpFile content])
    else
      (fs.write destination content, false, true,
        [FileOp.write tmpFile content, FileOp.write destination content])

/-! ## Remaining definitions used by the theorems -/

/-- Is the value a Python mapping? -/
def isPyDict : PyVal → Bool
  | .dict _ => true
  | _ => false

/-- The fragment of entity `e` is settled in `fs`: for a present entity
the target file holds exactly the desired rendering, for an absent one
the target file does not exist (skipped entities impose nothing). -/
def Settled (base etype : String) (fs : FS) (e : ComposeEntity) : Prop :=
  ∀ n, keptName e = some n →
    if e.state = "absent" then fs (composePath base n) = Option.none
    else fs (composePath base n) = some (composeContent etype n e.payload)

/-- Scenario of spec section 8, example 3: the container entry
`{name: "cache", environments: {}, properties: {}}`. -/
def cacheEntity : ContainerEntity := ⟨"cache", [], [], [], []⟩

/-- Pre-existing files for the cache scenario: `D/cache/container.env`
and `D/cache/cache.properties` both exist. -/
def cacheFs : FS := fun p =>
  if p = "/d/cache/container.env" then some "FOO=bar\n"
  else if p = "/d/cache/cache.properties" then some "a = b\n"
  else Option.none

/-- A container entry lacking a name (`c.get("name", "")` yields `""`)
with one environment variable. -/
def namelessEntity : ContainerEntity := ⟨"", [("A", "1")], [], [], []⟩

/-! ## Helper lemmas on the dict embedding -/

theorem find?_eq_none_of_not_contains (k : String) (d : List (String × PyVal))
    (h : containsKey k d = false) :
    List.find? (fun kv => kv.1 == k) d = Option.none := by
  induction d with
  | nil => rfl
  | cons a t ih =>
    simp only [containsKey, List.any_cons, Bool.or_eq_false_iff] at h
    rw [List.find?_cons_of_neg _ (by simp [h.1]),
      ih (by simpa [containsKey] using h.2)]

theorem dictLookup_eq_none (k : String) (d : List (String × PyVal))
    (h : containsKey k d = false) : dictLookup k d = Option.none := by
  rw [dictLookup, find?_eq_none_of_not_contains k d h]
  rfl

theorem containsKey_of_truthy (k : String) (d : List (String × PyVal))
    (h : (dictGet k d).truthy = true) : containsKey k d = true := by
  cases hc : containsKey k d with
  | true => rfl
  | false =>
    rw [dictGet, dictLookup_eq_none k d hc] at h
    simp [PyVal.truthy, PyVal.falsy] at h

theorem dictLookup_setMap (k : String) (v : PyVal) (d : List (String × PyVal))
    (hc : containsKey k d = true) :
    dictLookup k (d.map (fun kv => if kv.1 == k then (k, v) else kv)) =
      some v := by
  induction d with
  | nil => simp [containsKey] at hc
  | cons a t ih =>
    by_cases hak : a.1 = k
    · have hakb : (a.1 == k) = true := by simpa using hak
      rw [List.map_cons, if_pos hakb, dictLookup,
        List.find?_cons_of_pos _ (by simp)]
      rfl
    · have hakb : (a.1 == k) = false := by simpa using hak
      have hct : containsKey k t = true := by
        simpa [containsKey, List.any_cons, hakb] using hc
      rw [List.map_cons, if_neg (by rw [hakb]; exact Bool.false_ne_true),
        dictLookup, List.find?_cons_of_neg _ (by simp [hakb])]
      exact ih hct

theorem dictGet_dictSet_self (k : String) (d : List (String × PyVal))
    (v : PyVal) : dictGet k (dictSet d k v) = v := by
  rw [dictSet]
  split
  · rename_i hc
    rw [dictGet, dictLookup_setMap k v d hc]
    rfl
  · rename_i hc
    have hc' : containsKey k d = false := by simpa using hc
    rw [dictGet, dictLookup, List.find?_append,
      find?_eq_none_of_not_contains k d hc']
    simp [List.find?]

theorem containsKey_setMap (k k' : String) (v : PyVal)
    (d : List (String × PyVal)) :
    containsKey k (d.map (fun kv => if kv.1 == k' then (k', v) else kv)) =
      containsKey k d := by
  induction d with
  | nil => rfl
  | cons a t ih =>
    have ih' : (t.map (fun kv => if kv.1 == k' then (k', v) else kv)).any
        (fun kv => kv.1 == k) = t.any (fun kv => kv.1 == k) := ih
    by_cases hak : a.1 = k'
    · have hakb : (a.1 == k') = true := by simpa using hak
      rw [List.map_cons, if_pos hakb, containsKey, List.any_cons,
        containsKey, List.any_cons, hak, ih']
    · have hakb : (a.1 == k') = false := by simpa using hak
      rw [List.map_cons, if_neg (by rw [hakb]; exact Bool.false_ne_true),
        containsKey, List.any_cons, containsKey, List.any_cons, ih']

theorem containsKey_dictSet_other (k k' : String) (d : List (String × PyVal))
    (v : PyVal) (hne : k ≠ k') :
    containsKey k (dictSet d k' v) = containsKey k d := by
  have hkk : (k' == k) = false := beq_eq_false_iff_ne.mpr (Ne.symm hne)
  rw [dictSet]
  split
  · exact containsKey_setMap k k' v d
  · simp [containsKey, List.any_append, hkk]

theorem containsKey_dictRemove_self (k : String) (d : List (String × PyVal)) :
    containsKey k (dictRemove k d) = false := by
  induction d with
  | nil => rfl
  | cons a t ih =>
    by_cases hak : a.1 = k
    · have hb : (a.1 != k) = false := by simp [bne, hak]
      simp only [dictRemove, List.filter_cons, hb, Bool.false_eq_true,
        if_false] at ih ⊢
      exact ih
    · have hakb : (a.1 == k) = false := by simpa using hak
      have hb : (a.1 != k) = true := by simp [bne, hakb]
      simp only [dictRemove, List.filter_cons, hb, if_true, containsKey,
        List.any_cons, hakb, Bool.false_or] at ih ⊢
      exact ih

/-! ## C5: combine_registries on a single override mapping -/

/-- C5: merging the single override mapping `{addr: "redis:6379"}` with
the defaults `{addr: None, timeout: 30}` does not return one merged
mapping: the leading comprehension of `combine_registries` iterates the
keys of the dict and feeds the raw key string to `_safe_merge`, whose
`{**base, **override}` unpacking raises a TypeError.  The claim that
this call yields `{"addr": "redis:6379", "timeout": 30}` is false on
the code. -/
theorem combine_single_dict_type_error :
    combine_registries (PyVal.dict [("addr", PyVal.str "redis:6379")])
      [[("addr", PyVal.none), ("timeout", PyVal.int 30)]] =
      Except.error "TypeError: object is not a mapping" := rfl

/-! ## C6: combine_registries on a list of override mappings -/

/-- C6: merging the one-element override list
`[{addr: "redis:6379", tags: []}]` with defaults `[{timeout: 30}]`
returns TWO merged mappings, not one: the leading comprehension already
appends a `_safe_merge` result (which keeps the empty collection
`tags: []`, since `v not in (None, "", False)` does not match `[]`),
and the list branch then appends a second, `if v`-cleaned copy.  Both
parts of the claim (exactly N results; no empty-collection values)
fail. -/
theorem combine_list_duplicates_and_keeps_empty :
    combine_registries
      (PyVal.list [PyVal.dict
        [("addr", PyVal.str "redis:6379"), ("tags", PyVal.list [])]])
      [[("timeout", PyVal.int 30)]] =
      Except.ok
        [[("timeout", PyVal.int 30), ("addr", PyVal.str "redis:6379"),
          ("tags", PyVal.list [])],
         [("timeout", PyVal.int 30), ("addr", PyVal.str "redis:6379")]] := rfl

/-! ## C7: registry_migrate -/

/-- C7 counterexample: with target version 3.1 and a mapping that
already has `addrs`, the claim says the mapping passes through
unchanged; the code still pops the legacy `addr` key, so the result
differs from the input. -/
theorem migrate_addrs_present_not_unchanged :
    registry_migrate
      [("addr", PyVal.str "a"), ("addrs", PyVal.list [PyVal.str "b"])]
      Option.none (some "3.1") = [("addrs", PyVal.list [PyVal.str "b"])] ∧
    registry_migrate
      [("addr", PyVal.str "a"), ("addrs", PyVal.list [PyVal.str "b"])]
      Option.none (some "3.1") ≠
      [("addr", PyVal.str "a"), ("addrs", PyVal.list [PyVal.str "b"])] := by
  refine ⟨rfl, fun h => ?_⟩
  exact absurd (congrArg List.length h) (by decide)

/-- C7 amended: for a target version at least 3.0, a truthy legacy
`addr` is always removed; `addrs = [addr]` is added exactly when
`addrs` is absent or falsy, while a truthy `addrs` is kept as it is
(only `addr` is dropped); a mapping whose `addr` is absent or falsy
passes through unchanged, as does any mapping below the threshold
version (e.g. 2.9). -/
theorem registry_migrate_amended (data : List (String × PyVal))
    (ct : Option String) (v : String)
    (hv : (v != "" && version_compare v ">=" "3.0") = true) :
    ((dictGet "addr" data).truthy = true →
      (dictGet "addrs" data).truthy = false →
      dictGet "addrs" (registry_migrate data ct (some v)) =
        PyVal.list [dictGet "addr" data] ∧
      containsKey "addr" (registry_migrate data ct (some v)) = false) ∧
    ((dictGet "addr" data).truthy = true →
      (dictGet "addrs" data).truthy = true →
      registry_migrate data ct (some v) = dictRemove "addr" data) ∧
    ((dictGet "addr" data).truthy = false →
      registry_migrate data ct (some v) = data) ∧
    (∀ (d : List (String × PyVal)) (c : Option String),
      registry_migrate d c (some "2.9") = d) := by
  rw [Bool.and_eq_true] at hv
  have hb : registry_migrate data ct (some v) =
      (let redisAddr := dictGet "addr" data
       let redisAddrs := dictGet "addrs" data
       let result := if redisAddr.truthy then dictRemove "addr" data else data
       if redisAddr.truthy && !redisAddrs.truthy then
         dictSet result "addrs" (PyVal.list [redisAddr])
       else result) := by
    unfold registry_migrate
    simp only [Option.getD_some]
    rw [if_pos (by rw [hv.1, hv.2]; rfl)]
  refine ⟨fun h1 h2 => ?_, fun h1 h2 => ?_, fun h1 => ?_, fun d c => ?_⟩
  · rw [hb]
    simp only [h1, h2, if_pos, Bool.not_false, Bool.and_self]
    refine ⟨dictGet_dictSet_self _ _ _, ?_⟩
    rw [containsKey_dictSet_other _ _ _ _ (by decide)]
    exact containsKey_dictRemove_self _ _
  · rw [hb]
    simp only [h1, h2, if_pos, Bool.not_true, Bool.and_false]
    rfl
  · rw [hb]
    simp only [h1, Bool.false_and, if_neg, Bool.false_eq_true,
      not_false_iff, if_false]
  · unfold registry_migrate
    rw [if_neg (by decide)]

/-- Witness for the amended C7 theorem at the example of the spec:
`migrate({"addr": "redis:6379"}, target_version="3.1")`. -/
theorem registry_migrate_amended_witness :
    dictGet "addrs"
      (registry_migrate [("addr", PyVal.str "redis:6379")]
        Option.none (some "3.1")) =
      PyVal.list [PyVal.str "redis:6379"] ∧
    containsKey "addr"
      (registry_migrate [("addr", PyVal.str "redis:6379")]
        Option.none (some "3.1")) = false :=
  (registry_migrate_amended [("addr", PyVal.str "redis:6379")]
    Option.none "3.1" (by decide)).1 (by decide) (by decide)

/-! ## C9: INI serialization -/
theorem iniSections_cons_dict (ak : String) (kvs : List (String × PyVal))
    (t : List (String × PyVal)) :
    iniSections ((ak, PyVal.dict kvs) :: t) =
      (ak, kvs.map (fun skv => (optionxform skv.1, iniToStr skv.2))) ::
        iniSections t := rfl

theorem iniSections_cons_nondict (ak : String) (av : PyVal)
    (t : List (String × PyVal)) (h : isPyDict av = false) :
    iniSections ((ak, av) :: t) = iniSections t := by
  cases av with
  | dict kvs => simp [isPyDict] at h
  | none => rfl
  | bool b => rfl
  | int n => rfl
  | str s => rfl
  | list xs => rfl

theorem iniDefaults_cons_dict (ak : String) (kvs : List (String × PyVal))
    (t : List (String × PyVal)) :
    iniDefaults ((ak, PyVal.dict kvs) :: t) = iniDefaults t := rfl

theorem iniDefaults_cons_nondict (ak : String) (av : PyVal)
    (t : List (String × PyVal)) (h : isPyDict av = false) :
    iniDefaults ((ak, av) :: t) =
      (optionxform ak, iniToStr av) :: iniDefaults t := by
  cases av with
  | dict kvs => simp [isPyDict] at h
  | none => rfl
  | bool b => rfl
  | int n => rfl
  | str s => rfl
  | list xs => rfl

/-- C9: INI serialization maps every top-level key holding a mapping to
a named section and every top-level scalar key into the DEFAULT
section; inside a section booleans render as lowercase true/false,
None renders as the empty string, and lists or nested mappings render
as a JSON string; the payload `{"db": {"host": "x", "ports": [1, 2]}}`
produces exactly `[db]` with `host = x` and `ports = [1, 2]`. -/
theorem ini_serialization :
    (∀ (data : List (String × PyVal)) (k : String)
        (kvs : List (String × PyVal)),
      (k, PyVal.dict kvs) ∈ data → k ∈ (iniSections data).map Prod.fst) ∧
    (∀ (data : List (String × PyVal)) (k : String) (v : PyVal),
      (k, v) ∈ data → isPyDict v = false →
        optionxform k ∈ (iniDefaults data).map Prod.fst) ∧
    iniToStr (PyVal.bool true) = "true" ∧
    iniToStr (PyVal.bool false) = "false" ∧
    iniToStr PyVal.none = "" ∧
    (∀ xs, iniToStr (PyVal.list xs) = jsonDumps (PyVal.list xs)) ∧
    (∀ kvs, iniToStr (PyVal.dict kvs) = jsonDumps (PyVal.dict kvs)) ∧
    iniDump [("db", PyVal.dict [("host", PyVal.str "x"),
        ("ports", PyVal.list [PyVal.int 1, PyVal.int 2])])] =
      "[db]\nhost = x\nports = [1, 2]\n\n" := by
  refine ⟨?_, ?_, rfl, rfl, rfl, fun xs => rfl, fun kvs => rfl, rfl⟩
  · intro data k kvs h
    induction data with
    | nil => cases h
    | cons a t ih =>
      obtain ⟨ak, av⟩ := a
      rcases List.mem_cons.mp h with h | h
      · injection h with h1 h2
        subst h1
        subst h2
        rw [iniSections_cons_dict, List.map_cons]
        exact List.mem_cons_self _ _
      · cases hv : av with
        | dict akvs =>
          rw [iniSections_cons_dict, List.map_cons]
          exact List.mem_cons_of_mem _ (ih h)
        | none =>
          rw [iniSections_cons_nondict ak PyVal.none t rfl]; exact ih h
        | bool b =>
          rw [iniSections_cons_nondict ak (PyVal.bool b) t rfl]; exact ih h
        | int n =>
          rw [iniSections_cons_nondict ak (PyVal.int n) t rfl]; exact ih h
        | str s =>
          rw [iniSections_cons_nondict ak (PyVal.str s) t rfl]; exact ih h
        | list xs =>
          rw [iniSections_cons_nondict ak (PyVal.list xs) t rfl]; exact ih h
  · intro data k v h hd
    induction data with
    | nil => cases h
    | cons a t ih =>
      obtain ⟨ak, av⟩ := a
      rcases List.mem_cons.mp h with h | h
      · injection h with h1 h2
        subst h1
        subst h2
        rw [iniDefaults_cons_nondict _ _ _ hd, List.map_cons]
        exact List.mem_cons_self _ _
      · cases hv : av with
        | dict akvs => rw [iniDefaults_cons_dict]; exact ih h
        | none =>
          rw [iniDefaults_cons_nondict ak PyVal.none t rfl, List.map_cons]
          exact List.mem_cons_of_mem _ (ih h)
        | bool b =>
          rw [iniDefaults_cons_nondict ak (PyVal.bool b) t rfl, List.map_cons]
          exact List.mem_cons_of_mem _ (ih h)
        | int n =>
          rw [iniDefaults_cons_nondict ak (PyVal.int n) t rfl, List.map_cons]
          exact List.mem_cons_of_mem _ (ih h)
        | str s =>
          rw [iniDefaults_cons_nondict ak (PyVal.str s) t rfl, List.map_cons]
          exact List.mem_cons_of_mem _ (ih h)
        | list xs =>
          rw [iniDefaults_cons_nondict ak (PyVal.list xs) t rfl, List.map_cons]
          exact List.mem_cons_of_mem _ (ih h)

/-- Witness for the membership hypotheses of the C9 theorem at concrete
payloads. -/
theorem ini_serialization_witness :
    "db" ∈ (iniSections [("db", PyVal.dict [("host", PyVal.str "x")])]).map
      Prod.fst ∧
    optionxform "host" ∈ (iniDefaults [("host", PyVal.int 1)]).map Prod.fst :=
  ⟨ini_serialization.1 _ "db" _ (List.mem_singleton.mpr rfl),
   ini_serialization.2.1 _ "host" (PyVal.int 1)
     (List.mem_singleton.mpr rfl) rfl⟩

/-! ## C2: empty environments/properties payloads -/

/-- C2: for the container entry `{name: "cache", environments: {},
properties: {}}` with both `D/cache/container.env` and
`D/cache/cache.properties` pre-existing, the claim (and the documentation
of the module itself) says both files are removed.  The code removes
neither: `container.env` is overwritten in place with the rendered
empty template (the environment writer has no removal branch), and the
properties block is skipped entirely because `bool({})` is falsy, so
`cache.properties` keeps its old content.  The run still reports
changed=true, from rewriting `container.env`. -/
theorem empty_payload_files_not_removed :
    runFS (containerRun "/d" "/t" [cacheEntity] cacheFs)
      "/d/cache/container.env" = some (some (envRender [])) ∧
    runFS (containerRun "/d" "/t" [cacheEntity] cacheFs)
      "/d/cache/cache.properties" = some (some "a = b\n") ∧
    runChanged (containerRun "/d" "/t" [cacheEntity] cacheFs) = some true :=
  ⟨rfl, rfl, rfl⟩

/-! ## C3: replacement semantics of the writers -/

/-- C3 counterexample: the environment writer, reconciling `A=1` for
container `web` against an empty directory, emits a direct in-place
write to the target path `/d/web/container.env` and no move operation
at all — refuting the claim that the writers never update a target by
writing into it in place. -/
theorem env_writer_writes_target_in_place :
    (writeEnvironments "/d" "/t" "web" [("A", "1")] FS.empty).2.2 =
      [FileOp.write "/t/web/web.env" (envRender [("A", "1")]),
       FileOp.write "/d/web/container.env" (envRender [("A", "1")])] ∧
    FileOp.write "/d/web/container.env" (envRender [("A", "1")]) ∈
      (writeEnvironments "/d" "/t" "web" [("A", "1")] FS.empty).2.2 ∧
    ∀ s d, FileOp.move s d ∉
      (writeEnvironments "/d" "/t" "web" [("A", "1")] FS.empty).2.2 := by
  refine ⟨rfl, by decide, fun s d h => ?_⟩
  have ht : (writeEnvironments "/d" "/t" "web" [("A", "1")] FS.empty).2.2 =
      [FileOp.write "/t/web/web.env" (envRender [("A", "1")]),
       FileOp.write "/d/web/container.env" (envRender [("A", "1")])] := rfl
  rw [ht] at h
  simp at h

/-- A write operation never occurs in an optional checksum-removal
prefix. -/
theorem write_notin_opt_rm (p c2 x : String) (cond : Prop) [Decidable cond] :
    FileOp.write p c2 ∉ (if cond then [FileOp.rm x] else []) := by
  split <;> simp

/-- C3 amended: the compose fragment writer and the typed config-file
writer never open the target path for writing — a changed target is
replaced by moving the fully written scratch file over it; but the
environment writer and the properties writer update a changed target
by re-rendering the template directly to the target path (an in-place
write), so move semantics do not hold for every writer. -/
theorem fragment_replacement_semantics
    (fs fs2 fs3 fs4 : FS) (tmp target content : String)
    (base tmpd name : String) (envs : List (String × String)) (c : String)
    (base2 tmpd2 name2 cfgName ctype : String)
    (data : List (String × PyVal))
    (fprop : String) (props : List (String × String))
    (hne : tmp ≠ target)
    (hct : pathJoin3 tmpd2 name2 cfgName ≠ pathJoin3 base2 name2 cfgName) :
    (FileOp.write target c ∉ (fileStatePresent fs tmp target content).2.2) ∧
    ((fileStatePresent fs tmp target content).2.1 = true →
      FileOp.move tmp target ∈ (fileStatePresent fs tmp target content).2.2) ∧
    ((writeEnvironments base tmpd name envs fs2).2.1 = true →
      FileOp.write (pathJoin3 base name "container.env") (envRender envs) ∈
        (writeEnvironments base tmpd name envs fs2).2.2) ∧
    (∀ r, writeConfig base2 tmpd2 name2 cfgName ctype data fs3 =
        Except.ok r →
      (∀ c2, FileOp.write (pathJoin3 base2 name2 cfgName) c2 ∉ r.2.2) ∧
      (r.2.1 = true →
        FileOp.move (pathJoin3 tmpd2 name2 cfgName)
          (pathJoin3 base2 name2 cfgName) ∈ r.2.2)) ∧
    ((writeProperties base tmpd name fprop props fs4).2.1 = true →
      FileOp.write (pathJoin3 base name fprop) (propRender props) ∈
        (writeProperties base tmpd name fprop props fs4).2.2) := by
  refine ⟨?_, ?_, ?_, ?_, ?_⟩
  · intro h
    by_cases hc : fs target = some content
    · rw [fileStatePresent, if_pos hc] at h
      simp at h
      exact hne h.1.symm
    · rw [fileStatePresent, if_neg hc] at h
      simp at h
      exact hne h.1.symm
  · intro h
    by_cases hc : fs target = some content
    · rw [fileStatePresent, if_pos hc] at h
      simp at h
    · rw [fileStatePresent, if_neg hc]
      simp
  · intro h
    by_cases hc : (if (fs2 (pathJoin3 base name "container.env.checksum")).isSome = true
          then fs2.erase (pathJoin3 base name "container.env.checksum") else fs2)
        (pathJoin3 base name "container.env") = some (envRender envs)
    · rw [writeEnvironments, if_pos hc] at h
      simp at h
    · rw [writeEnvironments, if_neg hc]
      simp
  · intro r hr
    rw [writeConfig] at hr
    by_cases he : data.isEmpty = true
    · rw [if_pos he] at hr
      cases hfd : (if (fs3 (pathJoin3 base2 name2 (cfgName ++ ".checksum"))).isSome = true
          then fs3.erase (pathJoin3 base2 name2 (cfgName ++ ".checksum")) else fs3)
          (pathJoin3 base2 name2 cfgName) with
      | none =>
        rw [hfd] at hr
        have hrr := Except.ok.inj hr
        rw [← hrr]
        refine ⟨fun c2 hmem => ?_, fun hch => ?_⟩
        · exact write_notin_opt_rm _ _ _ _ hmem
        · simp at hch
      | some x =>
        rw [hfd] at hr
        have hrr := Except.ok.inj hr
        rw [← hrr]
        refine ⟨fun c2 hmem => ?_, fun hch => ?_⟩
        · rw [List.mem_append] at hmem
          rcases hmem with hmem | hmem
          · exact write_notin_opt_rm _ _ _ _ hmem
          · simp at hmem
        · simp at hch
    · rw [if_neg he] at hr
      cases hcd : configDump ctype data with
      | error e =>
        rw [hcd] at hr
        simp [Bind.bind, Except.bind] at hr
      | ok text =>
        rw [hcd] at hr
        simp only [Bind.bind, Except.bind] at hr
        by_cases hc : (if (fs3 (pathJoin3 base2 name2 (cfgName ++ ".checksum"))).isSome = true
            then fs3.erase (pathJoin3 base2 name2 (cfgName ++ ".checksum")) else fs3)
            (pathJoin3 base2 name2 cfgName) = some text
        · rw [if_pos hc] at hr
          have hrr := Except.ok.inj hr
          rw [← hrr]
          refine ⟨fun c2 hmem => ?_, fun hch => ?_⟩
          · rw [List.mem_append] at hmem
            rcases hmem with hmem | hmem
            · exact write_notin_opt_rm _ _ _ _ hmem
            · simp at hmem
              exact hct hmem.1.symm
          · simp at hch
        · rw [if_neg hc] at hr
          have hrr := Except.ok.inj hr
          rw [← hrr]
          refine ⟨fun c2 hmem => ?_, fun hch => ?_⟩
          · rw [List.mem_append] at hmem
            rcases hmem with hmem | hmem
            · exact write_notin_opt_rm _ _ _ _ hmem
            · simp at hmem
              exact hct hmem.1.symm
          · simp
  · intro h
    by_cases hp : props = []
    · rw [writeProperties, if_pos hp] at h
      cases hfd : (if (fs4 (pathJoin3 base name (fprop ++ ".checksum"))).isSome = true
          then fs4.erase (pathJoin3 base name (fprop ++ ".checksum")) else fs4)
          (pathJoin3 base name fprop) with
      | none =>
        rw [hfd] at h
        simp at h
      | some x =>
        rw [hfd] at h
        simp at h
    · by_cases hc : (if (fs4 (pathJoin3 base name (fprop ++ ".checksum"))).isSome = true
          then fs4.erase (pathJoin3 base name (fprop ++ ".checksum")) else fs4)
          (pathJoin3 base name fprop) = some (propRender props)
      · rw [writeProperties, if_neg hp, if_pos hc] at h
        simp at h
      · rw [writeProperties, if_neg hp, if_neg hc]
        simp

/-- Witness for the amended C3 theorem: concrete scratch and target
paths for all four writers. -/
theorem fragment_replacement_semantics_witness :
    (FileOp.write "/d/x.conf" "c" ∉
      (fileStatePresent FS.empty "/t/x.conf" "/d/x.conf" "c").2.2) ∧
    ((fileStatePresent FS.empty "/t/x.conf" "/d/x.conf" "c").2.1 = true →
      FileOp.move "/t/x.conf" "/d/x.conf" ∈
        (fileStatePresent FS.empty "/t/x.conf" "/d/x.conf" "c").2.2) ∧
    ((writeEnvironments "/d" "/t" "web" [("A", "1")] FS.empty).2.1 = true →
      FileOp.write (pathJoin3 "/d" "web" "container.env")
          (envRender [("A", "1")]) ∈
        (writeEnvironments "/d" "/t" "web" [("A", "1")] FS.empty).2.2) ∧
    (∀ r, writeConfig "/d" "/t" "web" "app.ini" "ini"
        [("a", PyVal.int 1)] FS.empty = Except.ok r →
      (∀ c2, FileOp.write (pathJoin3 "/d" "web" "app.ini") c2 ∉ r.2.2) ∧
      (r.2.1 = true →
        FileOp.move (pathJoin3 "/t" "web" "app.ini")
          (pathJoin3 "/d" "web" "app.ini") ∈ r.2.2)) ∧
    ((writeProperties "/d" "/t" "web" "web.properties" [("k", "v")]
        FS.empty).2.1 = true →
      FileOp.write (pathJoin3 "/d" "web" "web.properties")
          (propRender [("k", "v")]) ∈
        (writeProperties "/d" "/t" "web" "web.properties" [("k", "v")]
          FS.empty).2.2) :=
  fragment_replacement_semantics FS.empty FS.empty FS.empty FS.empty
    "/t/x.conf" "/d/x.conf" "c" "/d" "/t" "web" [("A", "1")] "c"
    "/d" "/t" "web" "app.ini" "ini" [("a", PyVal.int 1)]
    "web.properties" [("k", "v")] (by decide) (by decide)

/-! ## C4: state=absent handling -/

/-- C4: an absent entity whose fragment does not exist reports
changed=false and touches nothing; one whose fragment exists reports
changed=true and the fragment is gone afterwards — for the compose
fragment remover, and likewise for the Docker client configuration
remover (whose checksum sidecar has already been cleaned up by the
time it runs, so only the destination decides the changed flag). -/
theorem absent_state_changed_iff_existed (fs fs2 : FS)
    (p c c2 dest cf : String) (hdc : dest ≠ cf) :
    (fs p = Option.none → fileStateAbsent fs p = (fs, false, [])) ∧
    (fs p = some c →
      (fileStateAbsent fs p).2.1 = true ∧
      (fileStateAbsent fs p).1 p = Option.none) ∧
    (fs2 dest = Option.none → (clientConfigAbsent fs2 dest cf).2.1 = false) ∧
    (fs2 dest = some c2 →
      (clientConfigAbsent fs2 dest cf).2.1 = true ∧
      (clientConfigAbsent fs2 dest cf).1 dest = Option.none) := by
  have hg : ∀ q, cleanupChecksumFile fs2 cf dest q =
      if q = cf then Option.none else fs2 q := by
    intro q
    rw [cleanupChecksumFile]
    by_cases hs : (fs2 cf).isSome = true
    · rw [if_pos hs]
      have h1 : fs2.erase cf cf = Option.none := by simp [FS.erase]
      rw [if_neg (by simp [h1])]
      rw [FS.erase]
    · rw [if_neg hs]
      have h0 : fs2 cf = Option.none := by
        cases hv : fs2 cf with
        | none => rfl
        | some x => rw [hv] at hs; simp at hs
      rw [if_neg (by simp [h0])]
      by_cases hq : q = cf
      · rw [if_pos hq, hq, h0]
      · rw [if_neg hq]
  refine ⟨fun h => ?_, fun h => ?_, fun h => ?_, fun h => ?_⟩
  · rw [fileStateAbsent, h]
  · rw [fileStateAbsent, h]
    constructor
    · rfl
    · simp [FS.erase]
  · rw [clientConfigAbsent, removeConfiguration]
    have hd : cleanupChecksumFile fs2 cf dest dest = Option.none := by
      rw [hg dest, if_neg hdc, h]
    have hc2 : cleanupChecksumFile fs2 cf dest cf = Option.none := by
      rw [hg cf, if_pos rfl]
    simp [hd, hc2]
  · rw [clientConfigAbsent, removeConfiguration]
    have hd : cleanupChecksumFile fs2 cf dest dest = some c2 := by
      rw [hg dest, if_neg hdc, h]
    have hc2 : cleanupChecksumFile fs2 cf dest cf = Option.none := by
      rw [hg cf, if_pos rfl]
    simp only [hd, hc2, Option.isSome_some, Option.isSome_none,
      Bool.or_false, if_true, if_false, Bool.false_eq_true]
    constructor
    · trivial
    · simp [FS.erase]

/-- Witness for the C4 theorem: a filesystem holding exactly one
fragment and one client config. -/
theorem absent_state_changed_iff_existed_witness :
    ((fun q => if q = "/d/web.conf" then some "x"
        else if q = "/e/config.json" then some "y"
        else Option.none) : FS) "/d/web.conf" = some "x" ∧
    (fileStateAbsent
      (fun q => if q = "/d/web.conf" then some "x"
        else if q = "/e/config.json" then some "y"
        else Option.none) "/d/web.conf").2.1 = true ∧
    (fileStateAbsent
      (fun q => if q = "/d/web.conf" then some "x"
        else if q = "/e/config.json" then some "y"
        else Option.none) "/d/web.conf").1 "/d/web.conf" = Option.none :=
  ⟨rfl,
    (absent_state_changed_iff_existed
      (fun q => if q = "/d/web.conf" then some "x"
        else if q = "/e/config.json" then some "y"
        else Option.none)
      (fun q => if q = "/d/web.conf" then some "x"
        else if q = "/e/config.json" then some "y"
        else Option.none)
      "/d/web.conf" "x" "y" "/e/config.json" "/e/config.json.checksum"
      (by decide)).2.1 rfl⟩

/-! ## C8: entities lacking a name -/

/-- C8 counterexample: the container-environments reconciler does NOT
skip an entity lacking a name: for the entry `{environments: {A: 1}}`
(so `c.get("name", "")` yields the empty string) it writes
`base_directory/container.env` (the empty name component is dropped by
`os.path.join`), emits file-write operations and appends a per-entity
change record — refuting the claim that every reconciler skips
nameless entities entirely. -/
theorem container_nameless_entity_not_skipped :
    runFS (containerRun "/b" "/t" [namelessEntity] FS.empty)
      "/b/container.env" = some (some (envRender [("A", "1")])) ∧
    runRecords (containerRun "/b" "/t" [namelessEntity] FS.empty) =
      some [("", true)] ∧
    runTrace (containerRun "/b" "/t" [namelessEntity] FS.empty) =
      some [FileOp.write "/t/.env" (envRender [("A", "1")]),
            FileOp.write "/b/container.env" (envRender [("A", "1")])] :=
  ⟨rfl, rfl, rfl⟩

/-- C8 amended: the compose-files reconciler does skip entities lacking
a name entirely (no record, no file operation, no error: processing
the list with the nameless entity equals processing the list without
it); the container-environments reconciler instead processes every
entry, named or not — its environment writer always emits at least one
file write. -/
theorem nameless_entity_handling (base etype tmpd : String) (fs : FS)
    (e : ComposeEntity) (rest : List ComposeEntity)
    (h : keptName e = Option.none) :
    saveEntities base etype tmpd (e :: rest) fs =
      saveEntities base etype tmpd rest fs ∧
    (∀ (b t n : String) (envs : List (String × String)) (fs2 : FS),
      (writeEnvironments b t n envs fs2).2.2 ≠ []) := by
  constructor
  · rw [saveEntities, h]
  · intro b t n envs fs2
    by_cases hc : (if (fs2 (pathJoin3 b n "container.env.checksum")).isSome = true
          then fs2.erase (pathJoin3 b n "container.env.checksum") else fs2)
        (pathJoin3 b n "container.env") = some (envRender envs)
    · rw [writeEnvironments, if_pos hc]
      intro hcontra
      exact absurd (congrArg List.length hcontra)
        (by simp [List.length_append])
    · rw [writeEnvironments, if_neg hc]
      intro hcontra
      exact absurd (congrArg List.length hcontra)
        (by simp [List.length_append])

/-- Witness for the amended C8 theorem: a concrete nameless compose
entity is skipped. -/
theorem nameless_entity_handling_witness :
    saveEntities "/b" "services" "/t"
      [ComposeEntity.mk Option.none "present" []] FS.empty =
      saveEntities "/b" "services" "/t" [] FS.empty :=
  (nameless_entity_handling "/b" "services" "/t" FS.empty
    (ComposeEntity.mk Option.none "present" []) [] rfl).1

/-! ## C10: Docker client auth validation -/
theorem handleAuth_foldl_invalid_suffix
    (auths : List (String × List (String × PyVal)))
    (acc : List (String × String) × List (String × PyVal)) :
    ∃ t, (auths.foldl handleAuthStep acc).1 = acc.1 ++ t := by
  induction auths generalizing acc with
  | nil => exact ⟨[], (List.append_nil _).symm⟩
  | cons a rest ih =>
    rw [List.foldl_cons, handleAuthStep]
    by_cases hv : (validateAuth a.2).1 = true
    · rw [if_pos hv]
      exact ih _
    · rw [if_neg hv]
      obtain ⟨t, ht⟩ := ih (acc.1 ++ [(a.1, (validateAuth a.2).2)], acc.2)
      exact ⟨[(a.1, (validateAuth a.2).2)] ++ t, by
        rw [ht, List.append_assoc]⟩

theorem validateAuth_conflict (creds : List (String × PyVal))
    (h1 : (dictGet "auth" creds).truthy = true)
    (h2 : (dictGet "username" creds).truthy = true)
    (h3 : (dictGet "password" creds).truthy = true) :
    validateAuth creds = (false, authConflictMsg) := by
  rw [validateAuth]
  simp only [h1, h2, h3, Bool.not_true, Bool.false_and, Bool.and_self,
    Bool.true_and, Bool.or_self, Bool.and_true, Bool.false_eq_true,
    if_false, if_true]

/-- C10: an auths entry carrying `auth` together with both `username`
and `password` is invalid — the whole configuration is reported with
failed=true, its filesystem is untouched and no file is written; an
entry carrying `auth` with exactly one of `username`/`password` falls
through every guard and is accepted, and its `auth` value is copied
verbatim (no re-encoding) into the written auths mapping. -/
theorem auth_validation_and_verbatim_copy
    (creds creds2 : List (String × PyVal)) (r r2 : String)
    (pre post : List (String × List (String × PyVal)))
    (fs : FS) (dest tmp : String) (formats : List (String × List String))
    (h1 : (dictGet "auth" creds).truthy = true)
    (h2 : (dictGet "username" creds).truthy = true)
    (h3 : (dictGet "password" creds).truthy = true)
    (g1 : (dictGet "auth" creds2).truthy = true)
    (g2 : ((dictGet "username" creds2).truthy &&
      (dictGet "password" creds2).truthy) = false)
    (g3 : ((dictGet "username" creds2).truthy ||
      (dictGet "password" creds2).truthy) = true) :
    validateAuth creds = (false, authConflictMsg) ∧
    (clientConfigPresent fs dest tmp (pre ++ (r, creds) :: post)
      formats).2.1 = true ∧
    (clientConfigPresent fs dest tmp (pre ++ (r, creds) :: post)
      formats).1 = fs ∧
    (clientConfigPresent fs dest tmp (pre ++ (r, creds) :: post)
      formats).2.2.2 = [] ∧
    validateAuth creds2 = (true, "Username/password authentication defined.") ∧
    handleAuthentications [(r2, creds2)] =
      ([], [(r2, PyVal.dict [("auth", dictGet "auth" creds2)])]) := by
  have hval := validateAuth_conflict creds h1 h2 h3
  have hinv : ¬ (handleAuthentications (pre ++ (r, creds) :: post)).1.isEmpty = true := by
    rw [handleAuthentications, List.foldl_append, List.foldl_cons]
    obtain ⟨t, ht⟩ :=
      handleAuth_foldl_invalid_suffix post
        (handleAuthStep (pre.foldl handleAuthStep ([], [])) (r, creds))
    rw [ht, handleAuthStep]
    rw [hval]
    simp
  have hgate : clientConfigPresent fs dest tmp (pre ++ (r, creds) :: post)
      formats = (fs, true, false, []) := by
    rw [clientConfigPresent]
    rw [if_pos (by simpa using hinv)]
  have hval2 : validateAuth creds2 =
      (true, "Username/password authentication defined.") := by
    rw [validateAuth]
    simp only [g1, Bool.not_true, Bool.false_and, Bool.false_eq_true,
      if_false, g3, Bool.true_and, Bool.and_self, g2]
  refine ⟨hval, by rw [hgate], by rw [hgate], by rw [hgate], hval2, ?_⟩
  rw [handleAuthentications, List.foldl_cons, List.foldl_nil,
    handleAuthStep]
  rw [hval2]
  simp only [if_true]
  rw [encodeAuth, if_pos (containsKey_of_truthy _ _ g1)]
  rfl

/-- Witness for the C10 theorem: concrete conflicting and valid
credentials. -/
theorem auth_validation_and_verbatim_copy_witness :
    validateAuth [("auth", PyVal.str "QUJD"), ("username", PyVal.str "u"),
      ("password", PyVal.str "p")] = (false, authConflictMsg) ∧
    (clientConfigPresent FS.empty "/e/config.json" "/t/c"
      [("reg.tld", [("auth", PyVal.str "QUJD"), ("username", PyVal.str "u"),
        ("password", PyVal.str "p")])] []).2.1 = true ∧
    (clientConfigPresent FS.empty "/e/config.json" "/t/c"
      [("reg.tld", [("auth", PyVal.str "QUJD"), ("username", PyVal.str "u"),
        ("password", PyVal.str "p")])] []).1 = FS.empty ∧
    (clientConfigPresent FS.empty "/e/config.json" "/t/c"
      [("reg.tld", [("auth", PyVal.str "QUJD"), ("username", PyVal.str "u"),
        ("password", PyVal.str "p")])] []).2.2.2 = [] ∧
    validateAuth [("auth", PyVal.str "QUJD"), ("username", PyVal.str "u")] =
      (true, "Username/password authentication defined.") ∧
    handleAuthentications
      [("other.tld", [("auth", PyVal.str "QUJD"),
        ("username", PyVal.str "u")])] =
      ([], [("other.tld", PyVal.dict
        [("auth", dictGet "auth"
          [("auth", PyVal.str "QUJD"), ("username", PyVal.str "u")])])]) :=
  auth_validation_and_verbatim_copy
    [("auth", PyVal.str "QUJD"), ("username", PyVal.str "u"),
      ("password", PyVal.str "p")]
    [("auth", PyVal.str "QUJD"), ("username", PyVal.str "u")]
    "reg.tld" "other.tld" [] [] FS.empty "/e/config.json" "/t/c" []
    (by decide) (by decide) (by decide) (by decide) (by decide) (by decide)

/-! ## C1: idempotence of the compose fragment reconciler -/
theorem composePath_inj (base : String) {n m : String}
    (h : composePath base n = composePath base m) : n = m := by
  rw [composePath, composePath] at h
  have hd := congrArg String.data h
  simp only [String.data_append] at hd
  exact String.ext (List.append_cancel_left (List.append_cancel_right hd))

theorem keptNames_cons_none (e : ComposeEntity) (rest : List ComposeEntity)
    (h : keptName e = Option.none) :
    keptNames (e :: rest) = keptNames rest := by
  rw [keptNames, List.filterMap_cons, h, keptNames]

theorem keptNames_cons_some (e : ComposeEntity) (rest : List ComposeEntity)
    (n : String) (h : keptName e = some n) :
    keptNames (e :: rest) = n :: keptNames rest := by
  rw [keptNames, List.filterMap_cons, h, keptNames]

theorem composeStep_frame (base etype tmpd : String) (fs : FS)
    (e : ComposeEntity) (n : String) (q : String)
    (hq : q ≠ composePath base n) :
    (composeStep base etype tmpd fs e n).1 q = fs q := by
  rw [composeStep]
  split
  · rw [fileStateAbsent]
    cases hv : fs (composePath base n) with
    | none => rfl
    | some x => simp only [FS.erase, if_neg hq]
  · rw [fileStatePresent]
    split
    · rfl
    · simp only [FS.write, if_neg hq]

theorem composeStep_settled (base etype tmpd : String) (fs : FS)
    (e : ComposeEntity) (n : String) (h : keptName e = some n) :
    Settled base etype (composeStep base etype tmpd fs e n).1 e := by
  intro m hm
  have hmn : m = n := by
    rw [h] at hm
    exact (Option.some.inj hm).symm
  subst hmn
  rw [composeStep]
  by_cases hst : e.state = "absent"
  · simp only [if_pos hst]
    cases hv : fs (composePath base m) with
    | none => simp [fileStateAbsent, hv]
    | some x => simp [fileStateAbsent, hv, FS.erase]
  · simp only [if_neg hst]
    by_cases hc : fs (composePath base m) =
        some (composeContent etype m e.payload)
    · simp [fileStatePresent, hc]
    · simp [fileStatePresent, hc, FS.write]

theorem composeStep_noop (base etype tmpd : String) (fs : FS)
    (e : ComposeEntity) (n : String) (h : keptName e = some n)
    (hs : Settled base etype fs e) :
    (composeStep base etype tmpd fs e n).1 = fs ∧
    (composeStep base etype tmpd fs e n).2.1 = false := by
  have h1 := hs n h
  rw [composeStep]
  by_cases hst : e.state = "absent"
  · rw [if_pos hst] at h1
    simp only [if_pos hst]
    constructor <;> simp [fileStateAbsent, h1]
  · rw [if_neg hst] at h1
    simp only [if_neg hst]
    constructor <;> simp [fileStatePresent, h1]

theorem saveEntities_frame (base etype tmpd : String)
    (es : List ComposeEntity) (fs : FS) (q : String)
    (hq : ∀ n ∈ keptNames es, q ≠ composePath base n) :
    (saveEntities base etype tmpd es fs).1 q = fs q := by
  induction es generalizing fs with
  | nil => rfl
  | cons e rest ih =>
    cases hk : keptName e with
    | none =>
      rw [saveEntities, hk]
      exact ih fs (fun n hn =>
        hq n (by rw [keptNames_cons_none e rest hk]; exact hn))
    | some n =>
      rw [saveEntities, hk]
      have hrest : ∀ m ∈ keptNames rest, q ≠ composePath base m :=
        fun m hm => hq m (by
          rw [keptNames_cons_some e rest n hk]
          exact List.mem_cons_of_mem _ hm)
      have hqn : q ≠ composePath base n :=
        hq n (by
          rw [keptNames_cons_some e rest n hk]
          exact List.mem_cons_self _ _)
      calc (saveEntities base etype tmpd rest
              (composeStep base etype tmpd fs e n).1).1 q
          = (composeStep base etype tmpd fs e n).1 q := ih _ hrest
        _ = fs q := composeStep_frame base etype tmpd fs e n q hqn

theorem settled_of_eq_at_path (base etype : String) (fs fs' : FS)
    (e : ComposeEntity)
    (heq : ∀ n, keptName e = some n →
      fs' (composePath base n) = fs (composePath base n))
    (hs : Settled base etype fs e) : Settled base etype fs' e := by
  intro n hn
  have h1 := hs n hn
  have h2 := heq n hn
  by_cases hst : e.state = "absent"
  · rw [if_pos hst] at h1 ⊢
    rw [h2, h1]
  · rw [if_neg hst] at h1 ⊢
    rw [h2, h1]

theorem saveEntities_settled (base etype tmpd : String)
    (es : List ComposeEntity) (fs : FS)
    (h : (keptNames es).Nodup) :
    ∀ e ∈ es, Settled base etype (saveEntities base etype tmpd es fs).1 e := by
  induction es generalizing fs with
  | nil => intro e he; cases he
  | cons e0 rest ih =>
    intro e he
    cases hk : keptName e0 with
    | none =>
      rw [saveEntities, hk]
      rcases List.mem_cons.mp he with he0 | hmem
      · subst he0
        intro m hm
        rw [hk] at hm
        exact Option.noConfusion hm
      · exact ih fs (by rwa [keptNames_cons_none e0 rest hk] at h) e hmem
    | some n =>
      rw [saveEntities, hk]
      rw [keptNames_cons_some e0 rest n hk, List.nodup_cons] at h
      rcases List.mem_cons.mp he with he0 | hmem
      · subst he0
        refine settled_of_eq_at_path base etype
          (composeStep base etype tmpd fs e n).1 _ e ?_
          (composeStep_settled base etype tmpd fs e n hk)
        intro m hm
        have hmn : m = n := by
          rw [hk] at hm
          exact (Option.some.inj hm).symm
        subst hmn
        exact saveEntities_frame base etype tmpd rest _ (composePath base m)
          (fun m' hm' hcontra =>
            h.1 (by rw [composePath_inj base hcontra]; exact hm'))
      · exact ih _ h.2 e hmem

theorem saveEntities_noop (base etype tmpd : String)
    (es : List ComposeEntity) (fs : FS)
    (h : ∀ e ∈ es, Settled base etype fs e) :
    (saveEntities base etype tmpd es fs).1 = fs ∧
    (saveEntities base etype tmpd es fs).2.1 = false := by
  induction es generalizing fs with
  | nil => exact ⟨rfl, rfl⟩
  | cons e rest ih =>
    cases hk : keptName e with
    | none =>
      rw [saveEntities, hk]
      exact ih fs (fun x hx => h x (List.mem_cons_of_mem _ hx))
    | some n =>
      have hse := h e (List.mem_cons_self _ _)
      have hn := composeStep_noop base etype tmpd fs e n hk hse
      have hrest := ih fs (fun x hx => h x (List.mem_cons_of_mem _ hx))
      rw [saveEntities, hk]
      constructor
      · show (saveEntities base etype tmpd rest
            (composeStep base etype tmpd fs e n).1).1 = fs
        rw [hn.1, hrest.1]
      · show ((composeStep base etype tmpd fs e n).2.1 ||
            (saveEntities base etype tmpd rest
              (composeStep base etype tmpd fs e n).1).2.1) = false
        rw [hn.1, hn.2, hrest.2]
        rfl

/-- C1: reconciling a compose entity list twice in immediate succession
(arbitrary scratch directories for each run, the second run starting
from the filesystem left by the first run) reports changed=false on the second
run, and the filesystem — hence the content of every fragment — is
byte-identical before and after the second run.  The hypothesis is the
data-model invariant of spec section 3: entity names are unique within
their set. -/
theorem compose_reconcile_idempotent (base etype tmpd tmpd2 : String)
    (es : List ComposeEntity) (fs : FS)
    (h : (keptNames es).Nodup) :
    (saveEntities base etype tmpd2 es
      (saveEntities base etype tmpd es fs).1).2.1 = false ∧
    (saveEntities base etype tmpd2 es
      (saveEntities base etype tmpd es fs).1).1 =
      (saveEntities base etype tmpd es fs).1 := by
  have hs := saveEntities_settled base etype tmpd es fs h
  have hn := saveEntities_noop base etype tmpd2 es
    (saveEntities base etype tmpd es fs).1 hs
  exact ⟨hn.2, hn.1⟩

/-- Witness for the C1 theorem: two named entities (one present, one
absent) reconciled twice from the empty directory. -/
theorem compose_reconcile_idempotent_witness :
    (keptNames [ComposeEntity.mk (some "web") "present"
        [("image", PyVal.str "nginx:latest")],
      ComposeEntity.mk (some "old") "absent" []]).Nodup ∧
    ((saveEntities "/d" "services" "/t2"
        [ComposeEntity.mk (some "web") "present"
          [("image", PyVal.str "nginx:latest")],
         ComposeEntity.mk (some "old") "absent" []]
        (saveEntities "/d" "services" "/t"
          [ComposeEntity.mk (some "web") "present"
            [("image", PyVal.str "nginx:latest")],
           ComposeEntity.mk (some "old") "absent" []] FS.empty).1).2.1 =
        false ∧
      (saveEntities "/d" "services" "/t2"
        [ComposeEntity.mk (some "web") "present"
          [("image", PyVal.str "nginx:latest")],
         ComposeEntity.mk (some "old") "absent" []]
        (saveEntities "/d" "services" "/t"
          [ComposeEntity.mk (some "web") "present"
            [("image", PyVal.str "nginx:latest")],
           ComposeEntity.mk (some "old") "absent" []] FS.empty).1).1 =
        (saveEntities "/d" "services" "/t"
          [ComposeEntity.mk (some "web") "present"
            [("image", PyVal.str "nginx:latest")],
           ComposeEntity.mk (some "old") "absent" []] FS.empty).1) :=
  ⟨by decide,
    compose_reconcile_idempotent "/d" "services" "/t" "/t2"
      [ComposeEntity.mk (some "web") "present"
        [("image", PyVal.str "nginx:latest")],
       ComposeEntity.mk (some "old") "absent" []] FS.empty (by decide)⟩
